import Mathlib

/-!
Shallow embedding of the time-series filter / delta engine of
`src/interactive_graph.py` (YouTube_Channel_Tracker).

Timestamps are modelled as integers counting seconds; the Python
`timedelta(days=n)` subtracted from a `datetime` becomes `n * 86400`
seconds.  The CSV-backed data dictionary of four parallel lists becomes
the structure `ChannelData`.  Metric values are modelled as `ℤ`
(Python's unbounded `int`), rates as `ℚ` with the 2-decimal rounding of
`round(x, 2)` modelled as round-half-to-even on exact rationals.
`datetime.now()`, read inside `filter_data_by_period` in the source, is
made an explicit `now : ℤ` parameter of the embedding.
-/

/-- Number of seconds in one day: `timedelta(days=1)`. -/
def secondsPerDay : ℤ := 86400

/-- The data dictionary produced by `load_csv_data`: four parallel lists
(`timestamp`, `subscriber_count`, `view_count`, `video_count`). -/
@[ext]
structure ChannelData where
  timestamp : List ℤ
  subscriber_count : List ℤ
  view_count : List ℤ
  video_count : List ℤ
deriving DecidableEq, Repr

/-- The four parallel lists of a `ChannelData` have equal length
(one row per sample, as `load_csv_data` always produces). -/
def sameLengths (d : ChannelData) : Prop :=
  d.subscriber_count.length = d.timestamp.length ∧
  d.view_count.length = d.timestamp.length ∧
  d.video_count.length = d.timestamp.length

instance (d : ChannelData) : Decidable (sameLengths d) := by
  unfold sameLengths; infer_instance

/-- The `period_days` lookup of `filter_data_by_period`:
`{'過去7日': 7, '過去30日': 30, '過去90日': 90}.get(period, 0)`. -/
def period_days (period : String) : ℕ :=
  if period = "過去7日" then 7
  else if period = "過去30日" then 30
  else if period = "過去90日" then 90
  else 0

/-- The index list of the filtering loop of `filter_data_by_period`:
`for i, ts in enumerate(data['timestamp']): if ts >= cutoff: ...` keeps
exactly the indices whose timestamp is at least the cutoff. -/
def keptIndices (ts : List ℤ) (cutoff : ℤ) : List ℕ :=
  (List.range ts.length).filter (fun i => cutoff ≤ ts.getD i 0)

/-- The cutoff instant of `filter_data_by_period`:
`cutoff = now - timedelta(days=days)` with `days = period_days period`. -/
def cutoffFor (period : String) (now : ℤ) : ℤ :=
  now - (period_days period : ℤ) * secondsPerDay

/-- The filtering loop of `filter_data_by_period` (source lines 84-98):
build the four result lists by walking the timestamps with their index
and appending the whole row whenever `ts >= cutoff`. -/
def filteredData (data : ChannelData) (cutoff : ℤ) : ChannelData :=
  { timestamp :=
      (keptIndices data.timestamp cutoff).map
        (fun i => data.timestamp.getD i 0)
    subscriber_count :=
      (keptIndices data.timestamp cutoff).map
        (fun i => data.subscriber_count.getD i 0)
    view_count :=
      (keptIndices data.timestamp cutoff).map
        (fun i => data.view_count.getD i 0)
    video_count :=
      (keptIndices data.timestamp cutoff).map
        (fun i => data.video_count.getD i 0) }

/-- `filter_data_by_period(data, period)` from the source, with the
internal `datetime.now()` read made an explicit parameter `now`:
return the input unchanged for `'全期間'`, an empty series, or an
unknown period (`days == 0`); otherwise keep the rows whose timestamp
is at least `now - timedelta(days=days)`. -/
def filter_data_by_period (data : ChannelData) (period : String) (now : ℤ) :
    ChannelData :=
  if period = "全期間" ∨ data.timestamp = [] then data
  else if period_days period = 0 then data
  else filteredData data (cutoffFor period now)

/-- Round-half-to-even to an integer, the tie policy of Python's
builtin `round`. -/
def rhe (q : ℚ) : ℤ :=
  let f := ⌊q⌋
  if q - f < 1/2 then f
  else if 1/2 < q - f then f + 1
  else if 2 ∣ f then f else f + 1

/-- Python's `round(x, 2)`: round to 2 decimal places, ties to even. -/
def round2 (q : ℚ) : ℚ := (rhe (q * 100) : ℚ) / 100

/-- The per-metric entry of the result of `calculate_changes`:
`{'daily_change': ..., 'daily_rate': ..., 'weekly_change': ..., 'weekly_rate': ...}`.
`none` models Python's `None` ("insufficient history"). -/
structure ChangeMetric where
  daily_change : Option ℤ
  daily_rate : Option ℚ
  weekly_change : Option ℤ
  weekly_rate : Option ℚ
deriving DecidableEq, Repr

/-- A `ChangeMetric` with every field `None`, the initial value each key
is given in `calculate_changes`. -/
def emptyMetric : ChangeMetric := ⟨none, none, none, none⟩

/-- The full result of `calculate_changes`: one `ChangeMetric` per
tracked metric. -/
structure Changes where
  subscriber_count : ChangeMetric
  view_count : ChangeMetric
  video_count : ChangeMetric
deriving DecidableEq, Repr

/-- The loop body of `calculate_changes` for one key `l = data[key]`:
`current = l[-1]`, `previous = l[-2]`, daily change and rate, then the
weekly pair guarded by `len(l) >= 8` with `week_ago = l[-8]`.
Negative Python indices become `getD` at `length - 1`, `length - 2`,
`length - 8` (in range under the guards the source runs this under). -/
def calcMetric (l : List ℤ) : ChangeMetric :=
  let current := l.getD (l.length - 1) 0
  let previous := l.getD (l.length - 2) 0
  let daily_change := current - previous
  let daily_rate : ℚ :=
    if previous ≠ 0 then (daily_change : ℚ) / (previous : ℚ) * 100 else 0
  let weekly : Option ℤ × Option ℚ :=
    if 8 ≤ l.length then
      let week_ago := l.getD (l.length - 8) 0
      let weekly_change := current - week_ago
      let weekly_rate : ℚ :=
        if week_ago ≠ 0 then (weekly_change : ℚ) / (week_ago : ℚ) * 100 else 0
      (some weekly_change, some (round2 weekly_rate))
    else (none, none)
  { daily_change := some daily_change
    daily_rate := some (round2 daily_rate)
    weekly_change := weekly.1
    weekly_rate := weekly.2 }

/-- `calculate_changes(data)` from the source: all-`None` result when
`len(data['timestamp']) < 2`, otherwise the per-key computation for the
three metrics. -/
def calculate_changes (data : ChannelData) : Changes :=
  if data.timestamp.length < 2 then
    ⟨emptyMetric, emptyMetric, emptyMetric⟩
  else
    { subscriber_count := calcMetric data.subscriber_count
      view_count := calcMetric data.view_count
      video_count := calcMetric data.video_count }

/-- The per-channel flow of `main` (lines 255-301 of the source): skip a
channel with no data, filter the raw series by the selected period, skip
when the filtered series is empty, otherwise hand the presentation layer
the filtered series together with `calculate_changes(raw_data)` — the
changes are computed on the full unfiltered series. -/
def renderChannel (raw : ChannelData) (period : String) (now : ℤ) :
    Option (ChannelData × Changes) :=
  if raw.timestamp = [] then none
  else if (filter_data_by_period raw period now).timestamp = [] then none
  else some (filter_data_by_period raw period now, calculate_changes raw)

/-- The delta engine viewed at the query boundary together with an
ambient wall-clock reading `now`: the source of `calculate_changes`
never reads the clock, so the ambient time is ignored. -/
def calculate_changesAt (now : ℤ) (data : ChannelData) : Changes :=
  calculate_changes data

/-- The daily/weekly rate as the specification describes it: `0` when
the baseline is zero, otherwise the relative change in percent rounded
to two decimal places. -/
def rateSpec (cur prev : ℤ) : Option ℚ :=
  if prev = 0 then some 0
  else some (round2 (((cur - prev : ℤ) : ℚ) / (prev : ℚ) * 100))

/-- Absolute changes are exact signed differences of the last sample and
the sample `k` positions back (`k = 1` daily, `k = 7` weekly), for each
of the three metrics. -/
def AbsoluteChangeOk (d : ChannelData) : Prop :=
  (2 ≤ d.timestamp.length →
    (calculate_changes d).subscriber_count.daily_change =
      some (d.subscriber_count.getD (d.timestamp.length - 1) 0 -
        d.subscriber_count.getD (d.timestamp.length - 2) 0) ∧
    (calculate_changes d).view_count.daily_change =
      some (d.view_count.getD (d.timestamp.length - 1) 0 -
        d.view_count.getD (d.timestamp.length - 2) 0) ∧
    (calculate_changes d).video_count.daily_change =
      some (d.video_count.getD (d.timestamp.length - 1) 0 -
        d.video_count.getD (d.timestamp.length - 2) 0)) ∧
  (8 ≤ d.timestamp.length →
    (calculate_changes d).subscriber_count.weekly_change =
      some (d.subscriber_count.getD (d.timestamp.length - 1) 0 -
        d.subscriber_count.getD (d.timestamp.length - 8) 0) ∧
    (calculate_changes d).view_count.weekly_change =
      some (d.view_count.getD (d.timestamp.length - 1) 0 -
        d.view_count.getD (d.timestamp.length - 8) 0) ∧
    (calculate_changes d).video_count.weekly_change =
      some (d.video_count.getD (d.timestamp.length - 1) 0 -
        d.video_count.getD (d.timestamp.length - 8) 0))

/-- Percent changes follow `rateSpec` (zero-baseline policy, otherwise
rounded relative change) for each metric and offset. -/
def PercentChangeOk (d : ChannelData) : Prop :=
  (2 ≤ d.timestamp.length →
    (calculate_changes d).subscriber_count.daily_rate =
      rateSpec (d.subscriber_count.getD (d.timestamp.length - 1) 0)
        (d.subscriber_count.getD (d.timestamp.length - 2) 0) ∧
    (calculate_changes d).view_count.daily_rate =
      rateSpec (d.view_count.getD (d.timestamp.length - 1) 0)
        (d.view_count.getD (d.timestamp.length - 2) 0) ∧
    (calculate_changes d).video_count.daily_rate =
      rateSpec (d.video_count.getD (d.timestamp.length - 1) 0)
        (d.video_count.getD (d.timestamp.length - 2) 0)) ∧
  (8 ≤ d.timestamp.length →
    (calculate_changes d).subscriber_count.weekly_rate =
      rateSpec (d.subscriber_count.getD (d.timestamp.length - 1) 0)
        (d.subscriber_count.getD (d.timestamp.length - 8) 0) ∧
    (calculate_changes d).view_count.weekly_rate =
      rateSpec (d.view_count.getD (d.timestamp.length - 1) 0)
        (d.view_count.getD (d.timestamp.length - 8) 0) ∧
    (calculate_changes d).video_count.weekly_rate =
      rateSpec (d.video_count.getD (d.timestamp.length - 1) 0)
        (d.video_count.getD (d.timestamp.length - 8) 0))

/-- Insufficient history yields `None` for both members of the affected
change pair, and `None` is never the value `0`. -/
def InsufficientHistoryOk (d : ChannelData) : Prop :=
  (d.timestamp.length ≤ 1 →
    calculate_changes d = ⟨emptyMetric, emptyMetric, emptyMetric⟩ ∧
    (calculate_changes d).subscriber_count.daily_change ≠ some 0 ∧
    (calculate_changes d).subscriber_count.daily_rate ≠ some 0) ∧
  (d.timestamp.length ≤ 7 →
    (calculate_changes d).subscriber_count.weekly_change = none ∧
    (calculate_changes d).subscriber_count.weekly_rate = none ∧
    (calculate_changes d).view_count.weekly_change = none ∧
    (calculate_changes d).view_count.weekly_rate = none ∧
    (calculate_changes d).video_count.weekly_change = none ∧
    (calculate_changes d).video_count.weekly_rate = none ∧
    (calculate_changes d).subscriber_count.weekly_change ≠ some 0 ∧
    (calculate_changes d).subscriber_count.weekly_rate ≠ some 0)

/-- The last-n-days selection: the filtered timestamps are exactly the
input timestamps at least the cutoff, kept in order (a sublist), every
kept timestamp is at least the cutoff, and every timestamp below the
cutoff is excluded. -/
def FilterPeriodOk (d : ChannelData) (p : String) (now : ℤ) : Prop :=
  (filter_data_by_period d p now).timestamp =
    d.timestamp.filter (fun t => cutoffFor p now ≤ t) ∧
  List.Sublist (filter_data_by_period d p now).timestamp d.timestamp ∧
  (∀ t ∈ (filter_data_by_period d p now).timestamp, cutoffFor p now ≤ t) ∧
  (∀ t : ℤ, t < cutoffFor p now → t ∉ (filter_data_by_period d p now).timestamp)

/-- Rows survive filtering whole: the four result lists have one common
length and position `j` of the result is position `i` of the input in
all four lists simultaneously. -/
def RowIntegrityOk (d : ChannelData) (p : String) (now : ℤ) : Prop :=
  sameLengths (filter_data_by_period d p now) ∧
  ∀ j, j < (filter_data_by_period d p now).timestamp.length →
    ∃ i, i < d.timestamp.length ∧
      (filter_data_by_period d p now).timestamp.getD j 0 =
        d.timestamp.getD i 0 ∧
      (filter_data_by_period d p now).subscriber_count.getD j 0 =
        d.subscriber_count.getD i 0 ∧
      (filter_data_by_period d p now).view_count.getD j 0 =
        d.view_count.getD i 0 ∧
      (filter_data_by_period d p now).video_count.getD j 0 =
        d.video_count.getD i 0

/-- A one-sample series (timestamp 0). -/
def D1 : ChannelData := ⟨[0], [5], [6], [7]⟩

/-- A two-sample series with a zero baseline in `view_count`. -/
def D2 : ChannelData := ⟨[0, 86400], [100, 110], [0, 5], [7, 7]⟩

/-- A four-sample series (enough daily history, not enough weekly). -/
def D4 : ChannelData :=
  ⟨[0, 86400, 172800, 259200], [1, 2, 3, 4], [9, 9, 9, 9], [0, 1, 1, 2]⟩

/-- An eight-sample daily series; `subscriber_count` starts at 0 and
decreases at the end, exercising the zero-baseline weekly rate and a
negative daily change. -/
def D8 : ChannelData :=
  ⟨[0, 86400, 172800, 259200, 345600, 432000, 518400, 604800],
   [0, 10, 20, 30, 40, 50, 60, 45],
   [5, 5, 5, 5, 5, 5, 5, 8],
   [0, 0, 1, 1, 2, 2, 3, 3]⟩

lemma round2_zero : round2 0 = 0 := by
  norm_num [round2, rhe]

lemma getD_map_nat (f : ℕ → ℤ) (l : List ℕ) (j : ℕ) (hj : j < l.length) :
    (l.map f).getD j 0 = f (l.getD j 0) := by
  induction l generalizing j with
  | nil => simp at hj
  | cons a t ih =>
    cases j with
    | zero => simp
    | succ j =>
      simp only [List.map_cons, List.getD_cons_succ]
      exact ih j (by simpa using hj)

lemma getD_mem_int (l : List ℤ) (j : ℕ) (hj : j < l.length) :
    l.getD j 0 ∈ l := by
  rw [List.getD_eq_getElem l 0 hj]
  exact List.getElem_mem hj

lemma getD_mem_nat (l : List ℕ) (j : ℕ) (hj : j < l.length) :
    l.getD j 0 ∈ l := by
  rw [List.getD_eq_getElem l 0 hj]
  exact List.getElem_mem hj

lemma keptIndices_cons (a : ℤ) (ts : List ℤ) (c : ℤ) :
    keptIndices (a :: ts) c =
      (if c ≤ a then [0] else []) ++ (keptIndices ts c).map Nat.succ := by
  unfold keptIndices
  rw [List.length_cons, List.range_succ_eq_map, List.filter_cons,
    List.filter_map]
  by_cases h : c ≤ a <;>
    simp [h, Function.comp_def, List.getElem?_cons_succ]

lemma keptIndices_map_getD (ts : List ℤ) (c : ℤ) :
    (keptIndices ts c).map (fun i => ts.getD i 0) =
      ts.filter (fun t => c ≤ t) := by
  induction ts with
  | nil => rfl
  | cons a t ih =>
    rw [keptIndices_cons, List.map_append, List.map_map, List.filter_cons]
    by_cases h : c ≤ a <;>
      simpa [h, Function.comp_def, List.getElem?_cons_succ] using ih

lemma keptIndices_lt (ts : List ℤ) (c : ℤ) (i : ℕ)
    (hi : i ∈ keptIndices ts c) : i < ts.length := by
  unfold keptIndices at hi
  have := List.mem_of_mem_filter hi
  simpa using this

lemma keptIndices_of_all (ts : List ℤ) (c : ℤ) (h : ∀ t ∈ ts, c ≤ t) :
    keptIndices ts c = List.range ts.length := by
  unfold keptIndices
  rw [List.filter_eq_self]
  intro i hi
  simp only [List.mem_range] at hi
  simpa using h _ (getD_mem_int ts i hi)

lemma map_getD_range (l : List ℤ) :
    (List.range l.length).map (fun i => l.getD i 0) = l := by
  induction l with
  | nil => rfl
  | cons a t ih =>
    rw [List.length_cons, List.range_succ_eq_map]
    simpa [List.map_map, Function.comp_def, List.getElem?_cons_succ] using ih

lemma map_getD_range_of_len (l : List ℤ) (n : ℕ) (h : l.length = n) :
    (List.range n).map (fun i => l.getD i 0) = l := by
  subst h; exact map_getD_range l

lemma calcMetric_daily_change (l : List ℤ) :
    (calcMetric l).daily_change =
      some (l.getD (l.length - 1) 0 - l.getD (l.length - 2) 0) := rfl

lemma calcMetric_daily_rate (l : List ℤ) :
    (calcMetric l).daily_rate =
      rateSpec (l.getD (l.length - 1) 0) (l.getD (l.length - 2) 0) := by
  unfold calcMetric rateSpec
  by_cases h : l.getD (l.length - 2) 0 = 0 <;>
    rw [List.getD_eq_getElem?_getD] at h <;> simp [h, round2_zero]

lemma calcMetric_weekly_none (l : List ℤ) (h : l.length < 8) :
    (calcMetric l).weekly_change = none ∧ (calcMetric l).weekly_rate = none := by
  unfold calcMetric
  simp [Nat.not_le.mpr h]

lemma calcMetric_weekly_change (l : List ℤ) (h : 8 ≤ l.length) :
    (calcMetric l).weekly_change =
      some (l.getD (l.length - 1) 0 - l.getD (l.length - 8) 0) := by
  unfold calcMetric
  simp [h]

lemma calcMetric_weekly_rate (l : List ℤ) (h : 8 ≤ l.length) :
    (calcMetric l).weekly_rate =
      rateSpec (l.getD (l.length - 1) 0) (l.getD (l.length - 8) 0) := by
  unfold calcMetric rateSpec
  by_cases h0 : l.getD (l.length - 8) 0 = 0 <;>
    rw [List.getD_eq_getElem?_getD] at h0 <;> simp [h, h0, round2_zero]

lemma filter_identity_aux (d : ChannelData) (p : String) (now : ℤ)
    (h : p = "全期間" ∨ period_days p = 0) :
    filter_data_by_period d p now = d := by
  rcases h with h | h
  · simp [filter_data_by_period, h]
  · unfold filter_data_by_period
    split
    · rfl
    · simp [h]

lemma filter_of_empty (d : ChannelData) (p : String) (now : ℤ)
    (h : d.timestamp = []) : filter_data_by_period d p now = d := by
  unfold filter_data_by_period
  rw [if_pos (Or.inr h)]

lemma filter_eq_filteredData (d : ChannelData) (p : String) (now : ℤ)
    (hp : p ≠ "全期間") (hd : period_days p ≠ 0) (hts : d.timestamp ≠ []) :
    filter_data_by_period d p now = filteredData d (cutoffFor p now) := by
  unfold filter_data_by_period
  rw [if_neg (by simp [hp, hts]), if_neg hd]

lemma filteredData_timestamp (d : ChannelData) (c : ℤ) :
    (filteredData d c).timestamp = d.timestamp.filter (fun t => c ≤ t) :=
  keptIndices_map_getD d.timestamp c

lemma filteredData_idem (d : ChannelData) (c : ℤ) :
    filteredData (filteredData d c) c = filteredData d c := by
  have hall : ∀ t ∈ (filteredData d c).timestamp, c ≤ t := by
    rw [filteredData_timestamp]
    intro t ht
    simpa using List.of_mem_filter ht
  have hk : keptIndices (filteredData d c).timestamp c =
      List.range (filteredData d c).timestamp.length :=
    keptIndices_of_all _ _ hall
  have hlen : ∀ l : List ℤ,
      ((keptIndices d.timestamp c).map (fun i => l.getD i 0)).length =
        (filteredData d c).timestamp.length := by
    intro l
    simp [filteredData]
  refine ChannelData.ext ?_ ?_ ?_ ?_ <;>
    · show (keptIndices (filteredData d c).timestamp c).map _ = _
      rw [hk]
      exact map_getD_range_of_len _ _ (hlen _)

/-- C1: for every series and every selected display period, the change
metrics handed to presentation are `calculate_changes` applied to the
full unfiltered series; the active period filter never changes any
reported daily or weekly delta. -/
theorem changes_from_unfiltered (raw : ChannelData) (p : String) (now : ℤ)
    (d : ChannelData) (ch : Changes)
    (h : renderChannel raw p now = some (d, ch)) :
    ch = calculate_changes raw ∧
    ∀ p' d' ch', renderChannel raw p' now = some (d', ch') → ch' = ch := by
  have key : ∀ (q : String) (d₀ : ChannelData) (c₀ : Changes),
      renderChannel raw q now = some (d₀, c₀) →
        c₀ = calculate_changes raw := by
    intro q d₀ c₀ hq
    unfold renderChannel at hq
    by_cases h1 : raw.timestamp = []
    · rw [if_pos h1] at hq; cases hq
    · rw [if_neg h1] at hq
      by_cases h2 : (filter_data_by_period raw q now).timestamp = []
      · rw [if_pos h2] at hq; cases hq
      · rw [if_neg h2] at hq
        have := Option.some.inj hq
        rw [Prod.ext_iff] at this
        exact this.2.symm
  exact ⟨key p d ch h,
    fun p' d' ch' h' => (key p' d' ch' h').trans (key p d ch h).symm⟩

/-- Witness for C1 at a concrete two-sample series and the all-time
period. -/
theorem changes_from_unfiltered_witness :
    renderChannel D2 "全期間" 0 = some (D2, calculate_changes D2) ∧
    (calculate_changes D2 = calculate_changes D2 ∧
      ∀ p' d' ch', renderChannel D2 p' 0 = some (d', ch') →
        ch' = calculate_changes D2) := by
  have h : renderChannel D2 "全期間" 0 = some (D2, calculate_changes D2) := by
    unfold renderChannel
    rw [filter_identity_aux D2 _ 0 (Or.inl rfl)]
    rw [if_neg (by decide), if_neg (by decide)]
  exact ⟨h, changes_from_unfiltered D2 "全期間" 0 D2 (calculate_changes D2) h⟩

/-- C2: for offsets `k ∈ {1, 7}` with more than `k` samples, the
absolute change of each metric is exactly the signed integer difference
between the last sample and the sample `k` positions back. -/
theorem changes_absolute_exact (d : ChannelData) (h : sameLengths d) :
    AbsoluteChangeOk d := by
  obtain ⟨h1, h2, h3⟩ := h
  constructor
  · intro hn
    unfold calculate_changes
    rw [if_neg (by omega)]
    refine ⟨?_, ?_, ?_⟩
    · rw [calcMetric_daily_change, h1]
    · rw [calcMetric_daily_change, h2]
    · rw [calcMetric_daily_change, h3]
  · intro hn
    unfold calculate_changes
    rw [if_neg (by omega)]
    refine ⟨?_, ?_, ?_⟩
    · rw [calcMetric_weekly_change _ (by omega), h1]
    · rw [calcMetric_weekly_change _ (by omega), h2]
    · rw [calcMetric_weekly_change _ (by omega), h3]

/-- Witness for C2 at a concrete eight-sample series (both offsets
apply; the daily subscriber change is negative). -/
theorem changes_absolute_exact_witness :
    sameLengths D8 ∧ AbsoluteChangeOk D8 :=
  ⟨by decide, changes_absolute_exact D8 (by decide)⟩

/-- C3: for offsets `k ∈ {1, 7}` with more than `k` samples, the percent
change of each metric is `0` when the baseline sample value is `0`, and
otherwise the relative change in percent rounded to two decimals. -/
theorem changes_percent_policy (d : ChannelData) (h : sameLengths d) :
    PercentChangeOk d := by
  obtain ⟨h1, h2, h3⟩ := h
  constructor
  · intro hn
    unfold calculate_changes
    rw [if_neg (by omega)]
    refine ⟨?_, ?_, ?_⟩
    · rw [calcMetric_daily_rate, h1]
    · rw [calcMetric_daily_rate, h2]
    · rw [calcMetric_daily_rate, h3]
  · intro hn
    unfold calculate_changes
    rw [if_neg (by omega)]
    refine ⟨?_, ?_, ?_⟩
    · rw [calcMetric_weekly_rate _ (by omega), h1]
    · rw [calcMetric_weekly_rate _ (by omega), h2]
    · rw [calcMetric_weekly_rate _ (by omega), h3]

/-- Witness for C3 at a concrete eight-sample series (the weekly
subscriber baseline is `0`, exercising the zero-baseline policy), plus
the worked examples of the specification: a 100 → 110 step yields a
daily rate of exactly `10` percent, and a 0 → 5 step on a zero baseline
yields rate `0`. -/
theorem changes_percent_policy_witness :
    (sameLengths D8 ∧ PercentChangeOk D8) ∧
    (calculate_changes D2).subscriber_count.daily_rate = some 10 ∧
    (calculate_changes D2).view_count.daily_rate = some 0 := by
  refine ⟨⟨by decide, changes_percent_policy D8 (by decide)⟩, ?_, ?_⟩ <;>
    norm_num [calculate_changes, calcMetric, D2, round2, rhe]

/-- C4: with at most `k` samples (`k = 1` daily, `k = 7` weekly) the
affected change pair is the defined absent value `None` for every
metric — a regular return value, never an exception, and never equal to
a zero change. -/
theorem changes_insufficient_history (d : ChannelData) (h : sameLengths d) :
    InsufficientHistoryOk d := by
  obtain ⟨h1, h2, h3⟩ := h
  constructor
  · intro hn
    unfold calculate_changes
    rw [if_pos (by omega)]
    exact ⟨rfl, by simp [emptyMetric], by simp [emptyMetric]⟩
  · intro hn
    by_cases hlt : d.timestamp.length < 2
    · unfold calculate_changes
      rw [if_pos hlt]
      simp [emptyMetric]
    · unfold calculate_changes
      rw [if_neg hlt]
      obtain ⟨w1, w1'⟩ := calcMetric_weekly_none d.subscriber_count (by omega)
      obtain ⟨w2, w2'⟩ := calcMetric_weekly_none d.view_count (by omega)
      obtain ⟨w3, w3'⟩ := calcMetric_weekly_none d.video_count (by omega)
      exact ⟨w1, w1', w2, w2', w3, w3',
        by simp [w1], by simp [w1']⟩

/-- Witness for C4 at a concrete one-sample series (both the daily and
the weekly pair are absent). -/
theorem changes_insufficient_history_witness :
    sameLengths D1 ∧ InsufficientHistoryOk D1 :=
  ⟨by decide, changes_insufficient_history D1 (by decide)⟩

/-- C5: for each named last-n-days period, the filtered series consists
exactly of the samples with timestamp at least `now - n days` (boundary
included), in input order with no reordering or deduplication; samples
below the cutoff are excluded, and an all-excluded input yields the
empty result rather than an error. -/
theorem filter_last_n_days (d : ChannelData) (p : String) (now : ℤ)
    (hp : p = "過去7日" ∨ p = "過去30日" ∨ p = "過去90日") :
    FilterPeriodOk d p now := by
  have hp1 : p ≠ "全期間" := by
    rcases hp with h | h | h <;> subst h <;> decide
  have hd : period_days p ≠ 0 := by
    rcases hp with h | h | h <;> subst h <;> decide
  have hts : (filter_data_by_period d p now).timestamp =
      d.timestamp.filter (fun t => cutoffFor p now ≤ t) := by
    by_cases he : d.timestamp = []
    · rw [filter_of_empty d p now he, he]
      rfl
    · rw [filter_eq_filteredData d p now hp1 hd he, filteredData_timestamp]
  refine ⟨hts, ?_, ?_, ?_⟩
  · rw [hts]
    exact List.filter_sublist _
  · intro t ht
    rw [hts] at ht
    simpa using List.of_mem_filter ht
  · intro t hlt hmem
    rw [hts] at hmem
    have := List.of_mem_filter hmem
    simp only [decide_eq_true_eq] at this
    omega

/-- Witness for C5 at a concrete two-sample series, the 30-day period
and a clock 40 days after the first sample (which is therefore
dropped). -/
theorem filter_last_n_days_witness :
    ("過去30日" = "過去7日" ∨ "過去30日" = "過去30日" ∨
      "過去30日" = "過去90日") ∧
    FilterPeriodOk D2 "過去30日" (40 * 86400) :=
  ⟨Or.inr (Or.inl rfl),
    filter_last_n_days D2 "過去30日" (40 * 86400) (Or.inr (Or.inl rfl))⟩

/-- C6: the all-time period — or any period mapped to the day-count-0
sentinel — returns the input series unchanged, including when it is
empty. -/
theorem filter_all_identity (d : ChannelData) (p : String) (now : ℤ)
    (hp : p = "全期間" ∨ period_days p = 0) :
    filter_data_by_period d p now = d :=
  filter_identity_aux d p now hp

/-- Witness for C6 at a concrete series and the all-time period. -/
theorem filter_all_identity_witness :
    ("全期間" = "全期間" ∨ period_days "全期間" = 0) ∧
    filter_data_by_period D2 "全期間" 12345 = D2 :=
  ⟨Or.inl rfl, filter_all_identity D2 "全期間" 12345 (Or.inl rfl)⟩

/-- C7: with a fixed clock reading, period filtering is idempotent for
every series and every period. -/
theorem filter_idempotent (d : ChannelData) (p : String) (now : ℤ) :
    filter_data_by_period (filter_data_by_period d p now) p now =
      filter_data_by_period d p now := by
  by_cases hid : p = "全期間" ∨ period_days p = 0
  · rw [filter_identity_aux d p now hid]
    exact filter_identity_aux d p now hid
  · push_neg at hid
    by_cases hts : d.timestamp = []
    · rw [filter_of_empty d p now hts]
      exact filter_of_empty d p now hts
    · rw [filter_eq_filteredData d p now hid.1 hid.2 hts]
      by_cases hr : (filteredData d (cutoffFor p now)).timestamp = []
      · exact filter_of_empty _ p now hr
      · rw [filter_eq_filteredData _ p now hid.1 hid.2 hr]
        exact filteredData_idem d (cutoffFor p now)

/-- C8 counterexample: the filter cannot be invoked with an arbitrary
non-negative day count.  A request for a 14-day window maps to the
day-count-0 sentinel, so a sample 20 days old — strictly below the
14-day cutoff — is returned unchanged instead of being excluded by a
last-14-days selection. -/
theorem filter_rejects_arbitrary_window :
    period_days "過去14日" = 0 ∧
    filter_data_by_period D1 "過去14日" (20 * secondsPerDay) = D1 ∧
    D1.timestamp.getD 0 0 < 20 * secondsPerDay - 14 * secondsPerDay := by
  refine ⟨rfl, ?_, by decide⟩
  exact filter_identity_aux D1 _ _ (Or.inr rfl)

/-- C8 amended: the filter accepts only the named day counts 7, 30 and
90; every other period designation is mapped to the day-count-0
sentinel (no restriction), so the engine cannot apply a last-n-days
selection for any other day count. -/
theorem filter_windows_named_only (p : String) :
    period_days p = 0 ∨ period_days p = 7 ∨ period_days p = 30 ∨
      period_days p = 90 := by
  unfold period_days
  split_ifs <;> simp

/-- C9 counterexample: `filter_data_by_period` depends on the wall
clock read inside the function — the same series and period give
different results at two different clock readings. -/
theorem filter_reads_wall_clock :
    filter_data_by_period D1 "過去7日" 0 ≠
      filter_data_by_period D1 "過去7日" (10 * secondsPerDay) := by
  decide

/-- C9 amended: `calculate_changes` is a pure function of its explicit
input — it reads no ambient clock — while `filter_data_by_period` is a
deterministic function of series, period and the clock reading, and is
clock-independent in the all-time case. -/
theorem purity_modulo_clock :
    (∀ (now₁ now₂ : ℤ) (d : ChannelData),
      calculate_changesAt now₁ d = calculate_changesAt now₂ d) ∧
    ∀ (now₁ now₂ : ℤ) (d : ChannelData),
      filter_data_by_period d "全期間" now₁ =
        filter_data_by_period d "全期間" now₂ := by
  refine ⟨fun _ _ _ => rfl, fun n₁ n₂ d => ?_⟩
  rw [filter_identity_aux d _ n₁ (Or.inl rfl),
    filter_identity_aux d _ n₂ (Or.inl rfl)]

/-- C10: on equal-length parallel lists, filtering keeps or drops whole
rows — the four result lists have a common length and every result
position takes its timestamp and its three metric values from one and
the same input position. -/
theorem filter_preserves_rows (d : ChannelData) (p : String) (now : ℤ)
    (h : sameLengths d) : RowIntegrityOk d p now := by
  unfold RowIntegrityOk
  by_cases hid : p = "全期間" ∨ period_days p = 0
  · rw [filter_identity_aux d p now hid]
    exact ⟨h, fun j hj => ⟨j, hj, rfl, rfl, rfl, rfl⟩⟩
  · push_neg at hid
    by_cases hts : d.timestamp = []
    · rw [filter_of_empty d p now hts]
      exact ⟨h, fun j hj => ⟨j, hj, rfl, rfl, rfl, rfl⟩⟩
    · rw [filter_eq_filteredData d p now hid.1 hid.2 hts]
      constructor
      · refine ⟨?_, ?_, ?_⟩ <;> simp [filteredData, sameLengths]
      · intro j hj
        have hjlen : j < (keptIndices d.timestamp (cutoffFor p now)).length := by
          simpa [filteredData] using hj
        refine ⟨(keptIndices d.timestamp (cutoffFor p now)).getD j 0,
          keptIndices_lt _ _ _ (getD_mem_nat _ _ hjlen),
          ?_, ?_, ?_, ?_⟩ <;>
          exact getD_map_nat _ _ _ hjlen

/-- Witness for C10 at a concrete two-sample series, the 30-day period
and a clock that keeps only the newer sample. -/
theorem filter_preserves_rows_witness :
    sameLengths D2 ∧ RowIntegrityOk D2 "過去30日" (40 * 86400) :=
  ⟨by decide, filter_preserves_rows D2 "過去30日" (40 * 86400) (by decide)⟩
